import Mathlib

/-!
Shallow embedding of the 16550A UART engine from `src/serial.rs`
(rust-vmm/vm-superio).

Bytes are modelled as `Nat`; every register write in the source either
stores a raw `u8` or masks it, and the bit-level operations below mirror
the source exactly (`&`, `|`, and complement-of-a-constant-mask within
eight bits).  The external capabilities are made explicit in the result
of each operation: `sinkBytes` records the bytes delivered to the output
sink during the call, `triggers` counts how many times the interrupt
signal was invoked, and `err` carries the error the call returned (the
trigger and sink outcomes for the call are supplied as explicit boolean
parameters, standing for the fallible external world).
-/

namespace VmSuperio

/-- Source constant `FIFO_SIZE` from serial.rs. -/
def FIFO_SIZE : Nat := 0x40

/-- Source constant `IER_RDA_BIT`. -/
def IER_RDA_BIT : Nat := 0b00000001

/-- Source constant `IER_THR_EMPTY_BIT`. -/
def IER_THR_EMPTY_BIT : Nat := 0b00000010

/-- Source constant `IER_UART_VALID_BITS`. -/
def IER_UART_VALID_BITS : Nat := 0b00001111

/-- Source constant `IIR_FIFO_BITS`. -/
def IIR_FIFO_BITS : Nat := 0b11000000

/-- Source constant `IIR_NONE_BIT`. -/
def IIR_NONE_BIT : Nat := 0b00000001

/-- Source constant `IIR_THR_EMPTY_BIT`. -/
def IIR_THR_EMPTY_BIT : Nat := 0b00000010

/-- Source constant `IIR_RDA_BIT`. -/
def IIR_RDA_BIT : Nat := 0b00000100

/-- Source constant `LCR_DLAB_BIT`. -/
def LCR_DLAB_BIT : Nat := 0b10000000

/-- Source constant `LSR_DATA_READY_BIT`. -/
def LSR_DATA_READY_BIT : Nat := 0b00000001

/-- Source constant `LSR_EMPTY_THR_BIT`. -/
def LSR_EMPTY_THR_BIT : Nat := 0b00100000

/-- Source constant `LSR_IDLE_BIT`. -/
def LSR_IDLE_BIT : Nat := 0b01000000

/-- Source constant `MCR_DTR_BIT`. -/
def MCR_DTR_BIT : Nat := 0b00000001

/-- Source constant `MCR_RTS_BIT`. -/
def MCR_RTS_BIT : Nat := 0b00000010

/-- Source constant `MCR_OUT1_BIT`. -/
def MCR_OUT1_BIT : Nat := 0b00000100

/-- Source constant `MCR_OUT2_BIT`. -/
def MCR_OUT2_BIT : Nat := 0b00001000

/-- Source constant `MCR_LOOP_BIT`. -/
def MCR_LOOP_BIT : Nat := 0b00010000

/-- Source constant `MSR_CTS_BIT`. -/
def MSR_CTS_BIT : Nat := 0b00010000

/-- Source constant `MSR_DSR_BIT`. -/
def MSR_DSR_BIT : Nat := 0b00100000

/-- Source constant `MSR_RI_BIT`. -/
def MSR_RI_BIT : Nat := 0b01000000

/-- Source constant `MSR_DCD_BIT`. -/
def MSR_DCD_BIT : Nat := 0b10000000

/-- Source constant `DEFAULT_BAUD_DIVISOR_HIGH`. -/
def DEFAULT_BAUD_DIVISOR_HIGH : Nat := 0x00

/-- Source constant `DEFAULT_BAUD_DIVISOR_LOW`. -/
def DEFAULT_BAUD_DIVISOR_LOW : Nat := 0x0C

/-- Source constant `DEFAULT_INTERRUPT_ENABLE`. -/
def DEFAULT_INTERRUPT_ENABLE : Nat := 0x00

/-- Source constant `DEFAULT_INTERRUPT_IDENTIFICATION`. -/
def DEFAULT_INTERRUPT_IDENTIFICATION : Nat := IIR_NONE_BIT

/-- Source constant `DEFAULT_LINE_STATUS`. -/
def DEFAULT_LINE_STATUS : Nat := LSR_EMPTY_THR_BIT ||| LSR_IDLE_BIT

/-- Source constant `DEFAULT_LINE_CONTROL`. -/
def DEFAULT_LINE_CONTROL : Nat := 0b00000011

/-- Source constant `DEFAULT_MODEM_CONTROL`. -/
def DEFAULT_MODEM_CONTROL : Nat := MCR_OUT2_BIT

/-- Source constant `DEFAULT_MODEM_STATUS`. -/
def DEFAULT_MODEM_STATUS : Nat := MSR_DSR_BIT ||| MSR_CTS_BIT ||| MSR_DCD_BIT

/-- Source constant `DEFAULT_SCRATCH`. -/
def DEFAULT_SCRATCH : Nat := 0x00

/-- Complement of a `u8` mask, as the source's `!mask` on `u8` constants. -/
def u8not (b : Nat) : Nat := 255 ^^^ b

/-- The register file of `struct Serial`; the oldest byte of `in_buffer`
(the `VecDeque` front) is the head of the list. -/
structure Serial where
  baud_divisor_low : Nat
  baud_divisor_high : Nat
  interrupt_enable : Nat
  interrupt_identification : Nat
  line_control : Nat
  line_status : Nat
  modem_control : Nat
  modem_status : Nat
  scratch : Nat
  in_buffer : List Nat
deriving DecidableEq

/-- Source `enum Error` from serial.rs (payloads dropped: only the variant tag
matters for the engine's behaviour). -/
inductive Error where
  | Trigger : Error
  | IOError : Error
deriving DecidableEq

/-- Result of one fallible engine call: final register file, bytes the
call delivered to the output sink, number of interrupt-signal
invocations, and the error returned (`none` = `Ok(())`). -/
structure CallResult where
  st : Serial
  sinkBytes : List Nat
  triggers : Nat
  err : Option Error
deriving DecidableEq

/-- Constructor `Serial::new` with the default register snapshot. -/
def Serial.new : Serial :=
  { baud_divisor_low := DEFAULT_BAUD_DIVISOR_LOW
    baud_divisor_high := DEFAULT_BAUD_DIVISOR_HIGH
    interrupt_enable := DEFAULT_INTERRUPT_ENABLE
    interrupt_identification := DEFAULT_INTERRUPT_IDENTIFICATION
    line_control := DEFAULT_LINE_CONTROL
    line_status := DEFAULT_LINE_STATUS
    modem_control := DEFAULT_MODEM_CONTROL
    modem_status := DEFAULT_MODEM_STATUS
    scratch := DEFAULT_SCRATCH
    in_buffer := [] }

/-- Method `Serial::is_dlab_set`. -/
def Serial.is_dlab_set (s : Serial) : Bool :=
  s.line_control &&& LCR_DLAB_BIT ≠ 0

/-- Method `Serial::is_rda_interrupt_enabled`. -/
def Serial.is_rda_interrupt_enabled (s : Serial) : Bool :=
  s.interrupt_enable &&& IER_RDA_BIT ≠ 0

/-- Method `Serial::is_thr_interrupt_enabled`. -/
def Serial.is_thr_interrupt_enabled (s : Serial) : Bool :=
  s.interrupt_enable &&& IER_THR_EMPTY_BIT ≠ 0

/-- Method `Serial::is_in_loop_mode`. -/
def Serial.is_in_loop_mode (s : Serial) : Bool :=
  s.modem_control &&& MCR_LOOP_BIT ≠ 0

/-- Method `Serial::set_lsr_rda_bit`. -/
def Serial.set_lsr_rda_bit (s : Serial) : Serial :=
  { s with line_status := s.line_status ||| LSR_DATA_READY_BIT }

/-- Method `Serial::clear_lsr_rda_bit`. -/
def Serial.clear_lsr_rda_bit (s : Serial) : Serial :=
  { s with line_status := s.line_status &&& u8not LSR_DATA_READY_BIT }

/-- Method `Serial::add_interrupt`. -/
def Serial.add_interrupt (s : Serial) (interrupt_bits : Nat) : Serial :=
  { s with interrupt_identification :=
      (s.interrupt_identification &&& u8not IIR_NONE_BIT) ||| interrupt_bits }

/-- Method `Serial::del_interrupt`. -/
def Serial.del_interrupt (s : Serial) (interrupt_bits : Nat) : Serial :=
  let iir := s.interrupt_identification &&& u8not interrupt_bits
  { s with interrupt_identification := if iir = 0 then IIR_NONE_BIT else iir }

/-- Method `Serial::thr_empty_interrupt`; `tOk` is the outcome the interrupt
signal would return if invoked.  Yields the new state, the number of
signal invocations, and the error result. -/
def Serial.thr_empty_interrupt (s : Serial) (tOk : Bool) :
    Serial × Nat × Option Error :=
  if s.is_thr_interrupt_enabled then
    if s.interrupt_identification &&& IIR_THR_EMPTY_BIT = 0 then
      let s1 := s.add_interrupt IIR_THR_EMPTY_BIT
      (s1, 1, if tOk then none else some Error.Trigger)
    else (s, 0, none)
  else (s, 0, none)

/-- Method `Serial::received_data_interrupt`. -/
def Serial.received_data_interrupt (s : Serial) (tOk : Bool) :
    Serial × Nat × Option Error :=
  if s.is_rda_interrupt_enabled then
    if s.interrupt_identification &&& IIR_RDA_BIT = 0 then
      let s1 := s.add_interrupt IIR_RDA_BIT
      (s1, 1, if tOk then none else some Error.Trigger)
    else (s, 0, none)
  else (s, 0, none)

/-- Method `Serial::write`.  `tOk` is the outcome of a (potential) interrupt
signal invocation, `wOk` of the sink `write_all`, `fOk` of the sink
`flush` during this call. -/
def Serial.write (s : Serial) (offset value : Nat) (tOk wOk fOk : Bool) :
    CallResult :=
  if offset = 0 then
    if s.is_dlab_set then
      ⟨{ s with baud_divisor_low := value }, [], 0, none⟩
    else if s.is_in_loop_mode then
      if s.in_buffer.length < FIFO_SIZE then
        let s1 := { s with in_buffer := s.in_buffer ++ [value] }
        let s2 := s1.set_lsr_rda_bit
        let r := s2.received_data_interrupt tOk
        ⟨r.1, [], r.2.1, r.2.2⟩
      else ⟨s, [], 0, none⟩
    else
      if wOk then
        if fOk then
          let r := s.thr_empty_interrupt tOk
          ⟨r.1, [value], r.2.1, r.2.2⟩
        else ⟨s, [value], 0, some Error.IOError⟩
      else ⟨s, [], 0, some Error.IOError⟩
  else if offset = 1 then
    if s.is_dlab_set then
      ⟨{ s with baud_divisor_high := value }, [], 0, none⟩
    else
      ⟨{ s with interrupt_enable := value &&& IER_UART_VALID_BITS }, [], 0, none⟩
  else if offset = 3 then ⟨{ s with line_control := value }, [], 0, none⟩
  else if offset = 4 then ⟨{ s with modem_control := value }, [], 0, none⟩
  else if offset = 7 then ⟨{ s with scratch := value }, [], 0, none⟩
  else ⟨s, [], 0, none⟩

/-- Method `Serial::read`: returned byte and the state after the read's side
effects. -/
def Serial.read (s : Serial) (offset : Nat) : Nat × Serial :=
  if offset = 0 then
    if s.is_dlab_set then (s.baud_divisor_low, s)
    else
      let s1 := s.del_interrupt IIR_RDA_BIT
      let s2 := if s1.in_buffer.length ≤ 1 then s1.clear_lsr_rda_bit else s1
      match s2.in_buffer with
      | [] => (0, s2)
      | b :: rest => (b, { s2 with in_buffer := rest })
  else if offset = 1 then
    if s.is_dlab_set then (s.baud_divisor_high, s) else (s.interrupt_enable, s)
  else if offset = 2 then
    (s.interrupt_identification ||| IIR_FIFO_BITS,
     { s with interrupt_identification := DEFAULT_INTERRUPT_IDENTIFICATION })
  else if offset = 3 then (s.line_control, s)
  else if offset = 4 then (s.modem_control, s)
  else if offset = 5 then (s.line_status, s)
  else if offset = 6 then
    if s.is_in_loop_mode then
      let msr := s.modem_status &&&
        u8not (MSR_DSR_BIT ||| MSR_CTS_BIT ||| MSR_RI_BIT ||| MSR_DCD_BIT)
      let msr := if s.modem_control &&& MCR_DTR_BIT ≠ 0 then msr ||| MSR_DSR_BIT else msr
      let msr := if s.modem_control &&& MCR_RTS_BIT ≠ 0 then msr ||| MSR_CTS_BIT else msr
      let msr := if s.modem_control &&& MCR_OUT1_BIT ≠ 0 then msr ||| MSR_RI_BIT else msr
      let msr := if s.modem_control &&& MCR_OUT2_BIT ≠ 0 then msr ||| MSR_DCD_BIT else msr
      (msr, s)
    else (s.modem_status, s)
  else if offset = 7 then (s.scratch, s)
  else (0, s)

/-- Method `Serial::enqueue_raw_bytes`. -/
def Serial.enqueue_raw_bytes (s : Serial) (input : List Nat) (tOk : Bool) :
    CallResult :=
  if ¬ s.is_in_loop_mode then
    let s1 := { s with in_buffer := s.in_buffer ++ input }
    let s2 := s1.set_lsr_rda_bit
    let r := s2.received_data_interrupt tOk
    ⟨r.1, [], r.2.1, r.2.2⟩
  else ⟨s, [], 0, none⟩

/-- One driver-visible operation on the engine, with the outcomes the
external capabilities would produce during the call. -/
inductive Op where
  | wr (offset value : Nat) (tOk wOk fOk : Bool) : Op
  | rd (offset : Nat) : Op
  | enq (input : List Nat) (tOk : Bool) : Op
deriving DecidableEq

/-- The state reached after one operation (the source keeps the mutated
`&mut self` state whether or not the call returned an error). -/
def stepOp (s : Serial) : Op → Serial
  | Op.wr offset value tOk wOk fOk => (s.write offset value tOk wOk fOk).st
  | Op.rd offset => (s.read offset).2
  | Op.enq input tOk => (s.enqueue_raw_bytes input tOk).st

/-- Run a sequence of operations. -/
def runOps (s : Serial) (ops : List Op) : Serial := ops.foldl stepOp s

/-! Helper lemmas about the bit-level operations. -/

/-- Testing a single-bit mask: `m &&& 2 ^ i` is nonzero exactly when bit `i`
of `m` is set. -/
lemma land_two_pow_ne_zero_iff (m i : Nat) :
    m &&& 2 ^ i ≠ 0 ↔ m.testBit i = true := by
  rw [Nat.and_two_pow]
  cases h : m.testBit i <;> simp [h, Nat.pos_iff_ne_zero.symm, Nat.pos_pow_of_pos]

/-- Fields of the register file that `received_data_interrupt` leaves
untouched (it only rewrites `interrupt_identification`). -/
lemma received_data_interrupt_frame (s : Serial) (tOk : Bool) :
    (s.received_data_interrupt tOk).1.modem_status = s.modem_status ∧
    (s.received_data_interrupt tOk).1.interrupt_enable = s.interrupt_enable ∧
    (s.received_data_interrupt tOk).1.line_status = s.line_status ∧
    (s.received_data_interrupt tOk).1.in_buffer = s.in_buffer ∧
    (s.received_data_interrupt tOk).1.line_control = s.line_control ∧
    (s.received_data_interrupt tOk).1.modem_control = s.modem_control := by
  unfold Serial.received_data_interrupt Serial.add_interrupt
  split_ifs <;> simp

/-- Fields of the register file that `thr_empty_interrupt` leaves
untouched (it only rewrites `interrupt_identification`). -/
lemma thr_empty_interrupt_frame (s : Serial) (tOk : Bool) :
    (s.thr_empty_interrupt tOk).1.modem_status = s.modem_status ∧
    (s.thr_empty_interrupt tOk).1.interrupt_enable = s.interrupt_enable ∧
    (s.thr_empty_interrupt tOk).1.line_status = s.line_status ∧
    (s.thr_empty_interrupt tOk).1.in_buffer = s.in_buffer ∧
    (s.thr_empty_interrupt tOk).1.line_control = s.line_control ∧
    (s.thr_empty_interrupt tOk).1.modem_control = s.modem_control := by
  unfold Serial.thr_empty_interrupt Serial.add_interrupt
  split_ifs <;> simp

/-- Writes to any offset the decode table ignores (2, 5, 6, anything
above 7) return success and change nothing. -/
lemma write_ignored_offset (s : Serial) (offset value : Nat) (tOk wOk fOk : Bool)
    (n0 : offset ≠ 0) (n1 : offset ≠ 1) (n3 : offset ≠ 3) (n4 : offset ≠ 4)
    (n7 : offset ≠ 7) :
    s.write offset value tOk wOk fOk = ⟨s, [], 0, none⟩ := by
  unfold Serial.write
  simp [n0, n1, n3, n4, n7]

/-- Reads outside offsets 0 and 2 have no side effect on the register
file. -/
lemma read_frame (s : Serial) (offset : Nat) (n0 : offset ≠ 0) (n2 : offset ≠ 2) :
    (s.read offset).2 = s := by
  unfold Serial.read
  rw [if_neg n0]
  split_ifs <;> simp_all

/-- A read of the Interrupt Identification register resets it to the
"none" sentinel and touches nothing else. -/
lemma read_iir_state (s : Serial) :
    (s.read 2).2
      = { s with interrupt_identification := DEFAULT_INTERRUPT_IDENTIFICATION } :=
  rfl

/-- State after a data-register read (DLAB clear): the received-data
cause is deleted, the data-ready bit is cleared when at most one byte
was queued, and the queue loses its front byte. -/
lemma read_data_state (s : Serial) (hd : s.is_dlab_set = false) :
    (s.read 0).2
      = { s with
          interrupt_identification :=
            (s.del_interrupt IIR_RDA_BIT).interrupt_identification,
          line_status :=
            if s.in_buffer.length ≤ 1 then
              s.line_status &&& u8not LSR_DATA_READY_BIT
            else s.line_status,
          in_buffer := s.in_buffer.tail } := by
  unfold Serial.read
  rw [hd]
  simp only [Bool.false_eq_true, if_false, if_pos rfl]
  rcases hb : s.in_buffer with _ | ⟨b, rest⟩ <;>
    split_ifs <;>
      simp_all [Serial.del_interrupt, Serial.clear_lsr_rda_bit]

/-- Value returned by a data-register read (DLAB clear): the oldest
queued byte, or 0 on an empty queue. -/
lemma read_data_val (s : Serial) (hd : s.is_dlab_set = false) :
    (s.read 0).1 = s.in_buffer.headD 0 := by
  unfold Serial.read
  rw [hd]
  simp only [Bool.false_eq_true, if_false, if_pos rfl]
  rcases hb : s.in_buffer with _ | ⟨b, rest⟩ <;>
    split_ifs <;>
      simp_all [Serial.del_interrupt, Serial.clear_lsr_rda_bit]

/-- With the received-data cause bit already outstanding, the
received-data interrupt routine does nothing. -/
lemma received_data_interrupt_already (s : Serial) (tOk : Bool)
    (h : s.interrupt_identification &&& IIR_RDA_BIT ≠ 0) :
    s.received_data_interrupt tOk = (s, 0, none) := by
  unfold Serial.received_data_interrupt
  split_ifs <;> rfl

/-- With the THR-empty cause bit already outstanding, the THR-empty
interrupt routine does nothing. -/
lemma thr_empty_interrupt_already (s : Serial) (tOk : Bool)
    (h : s.interrupt_identification &&& IIR_THR_EMPTY_BIT ≠ 0) :
    s.thr_empty_interrupt tOk = (s, 0, none) := by
  unfold Serial.thr_empty_interrupt
  split_ifs <;> rfl

/-- With the received-data interrupt enabled and its cause bit clear,
the received-data interrupt routine marks the cause and invokes the
signal once. -/
lemma received_data_interrupt_fires (s : Serial) (tOk : Bool)
    (hen : s.is_rda_interrupt_enabled = true)
    (hbit : s.interrupt_identification &&& IIR_RDA_BIT = 0) :
    s.received_data_interrupt tOk
      = (s.add_interrupt IIR_RDA_BIT, 1,
          if tOk then none else some Error.Trigger) := by
  unfold Serial.received_data_interrupt
  rw [if_pos hen, if_pos hbit]

/-- Invariant holding in every state reachable from `Serial.new` through
`write`, `read` and `enqueue_raw_bytes`: the stored modem status is
never touched, the interrupt-enable register carries only the four
legacy-valid bits, bits 5 and 6 of the line status are set, and the
data-ready bit of the line status is set whenever the queue is
non-empty. -/
def Inv (s : Serial) : Prop :=
  s.modem_status = DEFAULT_MODEM_STATUS ∧
  s.interrupt_enable &&& IER_UART_VALID_BITS = s.interrupt_enable ∧
  s.line_status.testBit 5 = true ∧
  s.line_status.testBit 6 = true ∧
  (s.in_buffer ≠ [] → s.line_status.testBit 0 = true)

/-- The fresh engine satisfies the invariant. -/
lemma Inv_new : Inv Serial.new := by
  unfold Inv
  decide

/-- The invariant is preserved by every operation. -/
lemma Inv_step (s : Serial) (op : Op) (h : Inv s) : Inv (stepOp s op) := by
  obtain ⟨hms, hie, h5, h6, hrda⟩ := h
  cases op with
  | wr offset value tOk wOk fOk =>
    show Inv (s.write offset value tOk wOk fOk).st
    by_cases o0 : offset = 0
    · subst o0
      unfold Serial.write
      simp only [if_pos rfl]
      split_ifs with hd hl hlen hw hf <;>
        simp_all [Inv, Serial.set_lsr_rda_bit, received_data_interrupt_frame,
          thr_empty_interrupt_frame, Nat.testBit_lor, LSR_DATA_READY_BIT]
    · by_cases o1 : offset = 1
      · subst o1
        unfold Serial.write
        split_ifs with h01 hd <;>
          simp_all [Inv, Nat.land_assoc]
      · by_cases o3 : offset = 3
        · subst o3
          unfold Serial.write
          simp_all [Inv]
        · by_cases o4 : offset = 4
          · subst o4
            unfold Serial.write
            simp_all [Inv]
          · by_cases o7 : offset = 7
            · subst o7
              unfold Serial.write
              simp_all [Inv]
            · rw [write_ignored_offset s offset value tOk wOk fOk o0 o1 o3 o4 o7]
              exact ⟨hms, hie, h5, h6, hrda⟩
  | rd offset =>
    show Inv (s.read offset).2
    by_cases o2 : offset = 2
    · subst o2
      rw [read_iir_state]
      exact ⟨hms, hie, h5, h6, hrda⟩
    · by_cases o0 : offset = 0
      · subst o0
        by_cases hd : s.is_dlab_set
        · have hsame : (s.read 0).2 = s := by
            unfold Serial.read
            simp [hd]
          rw [hsame]
          exact ⟨hms, hie, h5, h6, hrda⟩
        · rw [read_data_state s (by simpa using hd)]
          refine ⟨hms, hie, ?_, ?_, ?_⟩ <;>
            simp only
          · split_ifs <;> simp_all [Nat.testBit_land, u8not] <;> decide
          · split_ifs <;> simp_all [Nat.testBit_land, u8not] <;> decide
          · intro htail
            have hne : s.in_buffer ≠ [] := by
              intro hnil
              simp [hnil] at htail
            have h1lt : 1 < s.in_buffer.length := by
              have hp := List.length_pos.mpr htail
              rw [List.length_tail] at hp
              omega
            rw [if_neg (by omega)]
            exact hrda hne
      · rw [read_frame s offset o0 o2]
        exact ⟨hms, hie, h5, h6, hrda⟩
  | enq input tOk =>
    show Inv (s.enqueue_raw_bytes input tOk).st
    unfold Serial.enqueue_raw_bytes
    split_ifs with hl <;>
      simp_all [Inv, Serial.set_lsr_rda_bit, received_data_interrupt_frame,
        Nat.testBit_lor, LSR_DATA_READY_BIT]

/-- The invariant holds after running any operation sequence from a
state satisfying it. -/
lemma Inv_runOps (ops : List Op) (s : Serial) (h : Inv s) : Inv (runOps s ops) := by
  induction ops generalizing s with
  | nil => exact h
  | cons op rest ih => exact ih _ (Inv_step s op h)

/-- Every state reachable from the fresh engine satisfies the invariant. -/
lemma Inv_reachable (ops : List Op) : Inv (runOps Serial.new ops) :=
  Inv_runOps ops Serial.new Inv_new

/-- No write changes the stored modem-status field. -/
lemma write_modem_status (s : Serial) (offset value : Nat) (tOk wOk fOk : Bool) :
    (s.write offset value tOk wOk fOk).st.modem_status = s.modem_status := by
  unfold Serial.write
  split_ifs <;>
    simp_all [Serial.set_lsr_rda_bit, received_data_interrupt_frame,
      thr_empty_interrupt_frame]

/-- No read changes the stored modem-status field. -/
lemma read_modem_status (s : Serial) (offset : Nat) :
    (s.read offset).2.modem_status = s.modem_status := by
  by_cases o0 : offset = 0
  · subst o0
    by_cases hd : s.is_dlab_set
    · have hsame : (s.read 0).2 = s := by
        unfold Serial.read
        simp [hd]
      rw [hsame]
    · rw [read_data_state s (by simpa using hd)]
  · by_cases o2 : offset = 2
    · subst o2
      rw [read_iir_state]
    · rw [read_frame s offset o0 o2]

/-- No bulk injection changes the stored modem-status field. -/
lemma enqueue_modem_status (s : Serial) (input : List Nat) (tOk : Bool) :
    (s.enqueue_raw_bytes input tOk).st.modem_status = s.modem_status := by
  unfold Serial.enqueue_raw_bytes
  split_ifs <;>
    simp_all [Serial.set_lsr_rda_bit, received_data_interrupt_frame]

/-- In non-loopback mode a Modem Status read returns the stored field. -/
lemma read_msr_non_loop (s : Serial) (hl : s.is_in_loop_mode = false) :
    (s.read 6).1 = s.modem_status := by
  unfold Serial.read
  simp [hl]

/-- In loopback mode a Modem Status read synthesizes the value from
`modem_control` exactly as the source's chain of bit tests. -/
lemma read_msr_loop (s : Serial) (hl : s.is_in_loop_mode = true) :
    (s.read 6).1 =
      (let msr := s.modem_status &&&
        u8not (MSR_DSR_BIT ||| MSR_CTS_BIT ||| MSR_RI_BIT ||| MSR_DCD_BIT)
       let msr := if s.modem_control &&& MCR_DTR_BIT ≠ 0 then msr ||| MSR_DSR_BIT
         else msr
       let msr := if s.modem_control &&& MCR_RTS_BIT ≠ 0 then msr ||| MSR_CTS_BIT
         else msr
       let msr := if s.modem_control &&& MCR_OUT1_BIT ≠ 0 then msr ||| MSR_RI_BIT
         else msr
       if s.modem_control &&& MCR_OUT2_BIT ≠ 0 then msr ||| MSR_DCD_BIT
         else msr) := by
  unfold Serial.read
  simp [hl]

/-- Whether an operation is the bulk-injection one. -/
def Op.isEnq : Op → Bool
  | Op.enq _ _ => true
  | _ => false

/-- A read never grows the queue. -/
lemma read_in_buffer_length (s : Serial) (offset : Nat) :
    (s.read offset).2.in_buffer.length ≤ s.in_buffer.length := by
  by_cases o0 : offset = 0
  · subst o0
    by_cases hd : s.is_dlab_set
    · have hsame : (s.read 0).2 = s := by
        unfold Serial.read
        simp [hd]
      rw [hsame]
    · rw [read_data_state s (by simpa using hd)]
      simp only
      rw [List.length_tail]
      omega
  · by_cases o2 : offset = 2
    · subst o2
      rw [read_iir_state]
    · rw [read_frame s offset o0 o2]

/-- A register write never grows the queue past the FIFO bound. -/
lemma write_in_buffer_length (s : Serial) (offset value : Nat) (tOk wOk fOk : Bool)
    (h : s.in_buffer.length ≤ FIFO_SIZE) :
    (s.write offset value tOk wOk fOk).st.in_buffer.length ≤ FIFO_SIZE := by
  unfold Serial.write
  split_ifs <;>
    simp_all [Serial.set_lsr_rda_bit, received_data_interrupt_frame,
      thr_empty_interrupt_frame, FIFO_SIZE] <;>
    omega

/-- Queue bound preserved along any `write`/`read`-only run. -/
lemma runOps_in_buffer_length (ops : List Op) (s : Serial)
    (hops : ∀ op ∈ ops, op.isEnq = false) (h : s.in_buffer.length ≤ FIFO_SIZE) :
    (runOps s ops).in_buffer.length ≤ FIFO_SIZE := by
  induction ops generalizing s with
  | nil => exact h
  | cons op rest ih =>
    refine ih _ (fun o ho => hops o (List.mem_cons_of_mem _ ho)) ?_
    have hop := hops op (List.mem_cons_self op rest)
    cases op with
    | wr offset value tOk wOk fOk => exact write_in_buffer_length s _ _ _ _ _ h
    | rd offset => exact le_trans (read_in_buffer_length s offset) h
    | enq input tOk => simp [Op.isEnq] at hop

section ClaimTheorems

/-- C5: starting from a fresh engine, `write(MCR, LOOP_BIT)`,
`write(IER, RDA_BIT)`, `write(DATA, 0x41)` invoke the interrupt signal
exactly once in total (namely during the data write); afterwards
`read(LSR)` has the data-ready bit set, `read(DATA)` returns `0x41`, and
a subsequent `read(LSR)` has the data-ready bit clear. -/
theorem C5_loopback_scenario :
    (Serial.new.write 4 MCR_LOOP_BIT true true true).triggers = 0 ∧
    ((Serial.new.write 4 MCR_LOOP_BIT true true true).st.write 1 IER_RDA_BIT
        true true true).triggers = 0 ∧
    (((Serial.new.write 4 MCR_LOOP_BIT true true true).st.write 1 IER_RDA_BIT
        true true true).st.write 0 0x41 true true true).triggers = 1 ∧
    ((((Serial.new.write 4 MCR_LOOP_BIT true true true).st.write 1 IER_RDA_BIT
        true true true).st.write 0 0x41 true true true).st.read 5).1 &&&
        LSR_DATA_READY_BIT ≠ 0 ∧
    ((((Serial.new.write 4 MCR_LOOP_BIT true true true).st.write 1 IER_RDA_BIT
        true true true).st.write 0 0x41 true true true).st.read 0).1 = 0x41 ∧
    (((((Serial.new.write 4 MCR_LOOP_BIT true true true).st.write 1 IER_RDA_BIT
        true true true).st.write 0 0x41 true true true).st.read 0).2.read 5).1 &&&
        LSR_DATA_READY_BIT = 0 := by
  decide

/-- C2 counterexample: in the engine state holding the two-byte queue
`[0x61, 0x62]` (reached from fresh by one bulk injection) with DLAB
clear, a data-register read leaves one byte in the queue — so the claim's
"0 or 1 remaining entries after the pop" condition holds — yet the
data-ready bit of `line_status` is NOT cleared. -/
theorem C2_counterexample :
    ((Serial.new.enqueue_raw_bytes [0x61, 0x62] true).st.is_dlab_set = false) ∧
    (((Serial.new.enqueue_raw_bytes [0x61, 0x62] true).st.read 0).2.in_buffer.length
      = 1) ∧
    ¬ ((((Serial.new.enqueue_raw_bytes [0x61, 0x62] true).st.read 0).2.line_status
      &&& LSR_DATA_READY_BIT) = 0) := by
  decide

/-- C3 counterexample: a single `enqueue_raw_bytes` operation on a fresh
engine grows the Receive Queue to 65 entries, past the 64-entry bound the
claim asserts for every operation sequence. -/
theorem C3_counterexample :
    (runOps Serial.new [Op.enq (List.replicate 65 0) true]).in_buffer.length = 65 := by
  decide

/-- C4 counterexample: the state reached from a fresh engine by
`enqueue_raw_bytes` with an empty byte sequence has an empty Receive
Queue and yet line_status bit 0 (data-ready) set, refuting the claimed
"set if and only if non-empty" (the claim's only allowed exception is the
opposite direction: bit clear with one byte remaining). -/
theorem C4_counterexample :
    (runOps Serial.new [Op.enq [] true]).in_buffer = [] ∧
    (runOps Serial.new [Op.enq [] true]).line_status.testBit 0 = true := by
  decide

/-- C3 (amended): under `write` and `read` operations alone the Receive
Queue never exceeds 64 entries starting from a fresh engine, and a
loopback data-register write on a full queue drops the byte, leaving the
whole engine state unchanged; (the bound does not survive
`enqueue_raw_bytes`, which appends its whole input, see the
counterexample). -/
theorem C3_amended_queue_bound :
    (∀ ops : List Op, (∀ op ∈ ops, Op.isEnq op = false) →
        (runOps Serial.new ops).in_buffer.length ≤ FIFO_SIZE) ∧
    (∀ (s : Serial) (value : Nat) (tOk wOk fOk : Bool),
        s.is_dlab_set = false → s.is_in_loop_mode = true →
        FIFO_SIZE ≤ s.in_buffer.length →
        s.write 0 value tOk wOk fOk = ⟨s, [], 0, none⟩) := by
  constructor
  · intro ops hops
    exact runOps_in_buffer_length ops Serial.new hops (by simp [Serial.new])
  · intro s value tOk wOk fOk hd hl hlen
    unfold Serial.write
    rw [if_pos rfl, if_neg (by simp [hd]), if_pos hl,
      if_neg (Nat.not_lt.mpr hlen)]

set_option maxRecDepth 4000 in
/-- Witness for C3 (amended) at a concrete operation list and a concrete
full-queue loopback state. -/
theorem C3_amended_queue_bound_witness :
    (runOps Serial.new [Op.wr 0 7 true true true, Op.rd 0]).in_buffer.length
      ≤ FIFO_SIZE ∧
    (runOps Serial.new
        (Op.wr 4 MCR_LOOP_BIT true true true ::
          (List.replicate 64 (Op.wr 0 9 true true true)))).write 0 5 true true true
      = ⟨runOps Serial.new
          (Op.wr 4 MCR_LOOP_BIT true true true ::
            (List.replicate 64 (Op.wr 0 9 true true true))), [], 0, none⟩ :=
  ⟨C3_amended_queue_bound.1 [Op.wr 0 7 true true true, Op.rd 0] (by decide),
   C3_amended_queue_bound.2 _ 5 true true true (by decide) (by decide) (by decide)⟩

/-- C4 (amended): in every state reachable from a fresh engine by
`write`, `read` and `enqueue_raw_bytes`, line-status bits 5 and 6 are
set, and bit 0 (data-ready) is set whenever the Receive Queue is
non-empty.  (The claimed converse fails: bit 0 can be set with an empty
queue after `enqueue_raw_bytes` with empty input, see the
counterexample; the claimed "cleared while one byte remains" edge case
never materialises in a reachable state.) -/
theorem C4_amended_line_status_invariant (ops : List Op) :
    (runOps Serial.new ops).line_status.testBit 5 = true ∧
    (runOps Serial.new ops).line_status.testBit 6 = true ∧
    ((runOps Serial.new ops).in_buffer ≠ [] →
      (runOps Serial.new ops).line_status.testBit 0 = true) := by
  obtain ⟨_, _, h5, h6, h0⟩ := Inv_reachable ops
  exact ⟨h5, h6, h0⟩

/-- Witness for C4 (amended) at a concrete operation list with a
non-empty queue. -/
theorem C4_amended_line_status_invariant_witness :
    (runOps Serial.new [Op.enq [1] true]).line_status.testBit 5 = true ∧
    (runOps Serial.new [Op.enq [1] true]).line_status.testBit 0 = true :=
  ⟨(C4_amended_line_status_invariant [Op.enq [1] true]).1,
   (C4_amended_line_status_invariant [Op.enq [1] true]).2.2 (by decide)⟩

/-- C8: writing any byte to Interrupt Enable (DLAB clear) stores the
value masked to the four legacy-valid bits and reading the register back
returns exactly that masked value; consequently, in every reachable
state `interrupt_enable` has no bit set at position 4 or above. -/
theorem C8_interrupt_enable_masking :
    (∀ (s : Serial) (v : Nat) (tOk wOk fOk : Bool), s.is_dlab_set = false →
        (s.write 1 v tOk wOk fOk).st.interrupt_enable = v &&& IER_UART_VALID_BITS ∧
        ((s.write 1 v tOk wOk fOk).st.read 1).1 = v &&& IER_UART_VALID_BITS) ∧
    (∀ (ops : List Op) (i : Nat), 4 ≤ i →
        (runOps Serial.new ops).interrupt_enable.testBit i = false) := by
  constructor
  · intro s v tOk wOk fOk hd
    constructor
    · unfold Serial.write
      simp [hd]
    · unfold Serial.write Serial.read
      simp [hd, Serial.is_dlab_set] at *
      simp [hd]
  · intro ops i hi
    obtain ⟨_, hie, _, _, _⟩ := Inv_reachable ops
    rw [← hie, Nat.testBit_land]
    have h15 : Nat.testBit IER_UART_VALID_BITS i = false := by
      apply Nat.testBit_eq_false_of_lt
      calc (IER_UART_VALID_BITS : Nat) = 15 := rfl
        _ < 2 ^ 4 := by norm_num
        _ ≤ 2 ^ i := Nat.pow_le_pow_right (by norm_num) hi
    rw [h15, Bool.and_false]

/-- Witness for C8 at the fresh engine, `v = 0xFF`, and bit 4 of the
state after one interrupt-enable write. -/
theorem C8_interrupt_enable_masking_witness :
    ((Serial.new.write 1 0xFF true true true).st.interrupt_enable
        = 0xFF &&& IER_UART_VALID_BITS) ∧
    (runOps Serial.new [Op.wr 1 0xFF true true true]).interrupt_enable.testBit 4
      = false :=
  ⟨(C8_interrupt_enable_masking.1 Serial.new 0xFF true true true (by decide)).1,
   C8_interrupt_enable_masking.2 [Op.wr 1 0xFF true true true] 4 (by decide)⟩

/-- C10: writes to offsets 2, 5, 6 and to any offset above 7 return
success and leave the engine state (and external world) untouched; no
operation ever mutates the stored `modem_status` field, so in every
reachable non-loopback state a Modem Status read returns the default
DSR+CTS+DCD value. -/
theorem C10_ignored_writes_and_modem_status :
    (∀ (s : Serial) (value : Nat) (tOk wOk fOk : Bool),
        s.write 2 value tOk wOk fOk = ⟨s, [], 0, none⟩ ∧
        s.write 5 value tOk wOk fOk = ⟨s, [], 0, none⟩ ∧
        s.write 6 value tOk wOk fOk = ⟨s, [], 0, none⟩) ∧
    (∀ (s : Serial) (offset value : Nat) (tOk wOk fOk : Bool), 7 < offset →
        s.write offset value tOk wOk fOk = ⟨s, [], 0, none⟩) ∧
    (∀ (s : Serial) (op : Op), (stepOp s op).modem_status = s.modem_status) ∧
    (∀ ops : List Op, (runOps Serial.new ops).is_in_loop_mode = false →
        ((runOps Serial.new ops).read 6).1 = DEFAULT_MODEM_STATUS) := by
  refine ⟨?_, ?_, ?_, ?_⟩
  · intro s value tOk wOk fOk
    exact ⟨write_ignored_offset s 2 value tOk wOk fOk (by decide) (by decide)
        (by decide) (by decide) (by decide),
      write_ignored_offset s 5 value tOk wOk fOk (by decide) (by decide)
        (by decide) (by decide) (by decide),
      write_ignored_offset s 6 value tOk wOk fOk (by decide) (by decide)
        (by decide) (by decide) (by decide)⟩
  · intro s offset value tOk wOk fOk hoff
    exact write_ignored_offset s offset value tOk wOk fOk (by omega) (by omega)
      (by omega) (by omega) (by omega)
  · intro s op
    cases op with
    | wr offset value tOk wOk fOk => exact write_modem_status s offset value tOk wOk fOk
    | rd offset => exact read_modem_status s offset
    | enq input tOk => exact enqueue_modem_status s input tOk
  · intro ops hl
    rw [read_msr_non_loop _ hl]
    exact (Inv_reachable ops).1

/-- Witness for C10 at a concrete state, offset and operation list. -/
theorem C10_ignored_writes_and_modem_status_witness :
    (Serial.new.write 2 0xAB true true true = ⟨Serial.new, [], 0, none⟩) ∧
    (Serial.new.write 9 0xAB true true true = ⟨Serial.new, [], 0, none⟩) ∧
    ((stepOp Serial.new (Op.rd 6)).modem_status = Serial.new.modem_status) ∧
    ((runOps Serial.new [Op.rd 0]).read 6).1 = DEFAULT_MODEM_STATUS :=
  ⟨(C10_ignored_writes_and_modem_status.1 Serial.new 0xAB true true true).1,
   C10_ignored_writes_and_modem_status.2.1 Serial.new 9 0xAB true true true
     (by decide),
   C10_ignored_writes_and_modem_status.2.2.1 Serial.new (Op.rd 6),
   C10_ignored_writes_and_modem_status.2.2.2 [Op.rd 0] (by decide)⟩

/-- C2 (amended): for every engine state with DLAB clear, a read at
offset 0 clears the received-data cause bit from
`interrupt_identification` (restoring the "none" sentinel if no other
cause remains), pops and returns the oldest byte of the Receive Queue
(returning 0 on an empty queue, without error), and clears the
data-ready status bit exactly when the queue held at most one entry
before the pop — equivalently, when the queue is empty after the pop —
not when one entry remains after the pop as claimed (see the
counterexample). -/
theorem C2_amended_data_read (s : Serial) (hd : s.is_dlab_set = false) :
    ((s.read 0).1 = s.in_buffer.headD 0) ∧
    ((s.read 0).2.in_buffer = s.in_buffer.tail) ∧
    ((s.read 0).2.interrupt_identification.testBit 2 = false) ∧
    (s.interrupt_identification &&& u8not IIR_RDA_BIT = 0 →
      (s.read 0).2.interrupt_identification = IIR_NONE_BIT) ∧
    (s.in_buffer.length ≤ 1 →
      (s.read 0).2.line_status = s.line_status &&& u8not LSR_DATA_READY_BIT) ∧
    (1 < s.in_buffer.length → (s.read 0).2.line_status = s.line_status) := by
  refine ⟨read_data_val s hd, ?_, ?_, ?_, ?_, ?_⟩ <;>
    rw [read_data_state s hd] <;>
    simp only [Serial.del_interrupt]
  · split_ifs <;> simp_all [Nat.testBit_land, u8not] <;> intros <;> decide
  · intro h
    simp [h]
  · intro h
    rw [if_pos h]
  · intro h
    rw [if_neg (by omega)]

/-- Witness for C2 (amended) at the concrete one-byte-queue state. -/
theorem C2_amended_data_read_witness :
    (((Serial.new.enqueue_raw_bytes [5] true).st.read 0).1
        = (Serial.new.enqueue_raw_bytes [5] true).st.in_buffer.headD 0) ∧
    (((Serial.new.enqueue_raw_bytes [5] true).st.read 0).2.line_status
        = (Serial.new.enqueue_raw_bytes [5] true).st.line_status &&&
            u8not LSR_DATA_READY_BIT) :=
  ⟨(C2_amended_data_read _ (by decide)).1,
   (C2_amended_data_read _ (by decide)).2.2.2.2.1 (by decide)⟩

/-- C1: per-cause edge triggering.  In any state where the received-data
cause bit is already set, a loopback data-register write does not invoke
the interrupt signal; in any state where the THR-empty cause bit is
already set, a non-loopback data-register write does not invoke it; and
in the concrete run, two consecutive loopback writes after enabling the
received-data interrupt invoke the signal exactly once (1 then 0), while
after a read of the Interrupt Identification register a further loopback
write invokes it again. -/
theorem C1_edge_triggered_interrupts :
    (∀ (s : Serial) (value : Nat) (tOk wOk fOk : Bool),
        s.is_dlab_set = false → s.is_in_loop_mode = true →
        s.interrupt_identification &&& IIR_RDA_BIT ≠ 0 →
        (s.write 0 value tOk wOk fOk).triggers = 0) ∧
    (∀ (s : Serial) (value : Nat) (tOk : Bool),
        s.is_dlab_set = false → s.is_in_loop_mode = false →
        s.interrupt_identification &&& IIR_THR_EMPTY_BIT ≠ 0 →
        (s.write 0 value tOk true true).triggers = 0) ∧
    ((runOps Serial.new [Op.wr 4 MCR_LOOP_BIT true true true,
        Op.wr 1 IER_RDA_BIT true true true]).write 0 0x41 true true true).triggers
      = 1 ∧
    ((runOps Serial.new [Op.wr 4 MCR_LOOP_BIT true true true,
        Op.wr 1 IER_RDA_BIT true true true,
        Op.wr 0 0x41 true true true]).write 0 0x42 true true true).triggers
      = 0 ∧
    ((runOps Serial.new [Op.wr 4 MCR_LOOP_BIT true true true,
        Op.wr 1 IER_RDA_BIT true true true, Op.wr 0 0x41 true true true,
        Op.wr 0 0x42 true true true,
        Op.rd 2]).write 0 0x43 true true true).triggers = 1 := by
  refine ⟨?_, ?_, by decide, by decide, by decide⟩
  · intro s value tOk wOk fOk hd hl hiir
    unfold Serial.write
    rw [if_pos rfl, if_neg (by simp [hd]), if_pos hl]
    split_ifs with hlen
    · have hiir2 : (Serial.set_lsr_rda_bit
          { s with in_buffer := s.in_buffer ++ [value] }).interrupt_identification
          &&& IIR_RDA_BIT ≠ 0 := by
        simpa [Serial.set_lsr_rda_bit] using hiir
      simp only [received_data_interrupt_already _ tOk hiir2]
    · rfl
  · intro s value tOk hd hl hiir
    unfold Serial.write
    rw [if_pos rfl, if_neg (by simp [hd]), if_neg (by simp [hl]),
      if_pos rfl, if_pos rfl]
    simp only [thr_empty_interrupt_already s tOk hiir]

/-- Witness for C1 at concrete states whose cause bits are already
outstanding. -/
theorem C1_edge_triggered_interrupts_witness :
    ((runOps Serial.new [Op.wr 4 MCR_LOOP_BIT true true true,
        Op.wr 1 IER_RDA_BIT true true true,
        Op.wr 0 0x41 true true true]).write 0 0x55 true true true).triggers = 0 ∧
    ((runOps Serial.new [Op.wr 1 IER_THR_EMPTY_BIT true true true,
        Op.wr 0 0x41 true true true]).write 0 0x55 true true true).triggers = 0 :=
  ⟨C1_edge_triggered_interrupts.1 _ 0x55 true true true (by decide) (by decide)
      (by decide),
   C1_edge_triggered_interrupts.2.1 _ 0x55 true (by decide) (by decide)
      (by decide)⟩

/-- C6: failed external calls do not roll back earlier mutations, and
the two error variants are distinct.  When the interrupt signal fails
during a loopback data write, the byte stays appended, the data-ready
bit stays set and the cause bit stays marked while `Trigger` is
returned; when the sink flush fails after a successful sink write, the
byte was already delivered and `IOError` is returned; when the signal
fails during bulk injection, the appended bytes and the data-ready bit
remain. -/
theorem C6_error_no_rollback :
    (∀ (s : Serial) (value : Nat) (wOk fOk : Bool),
        s.is_dlab_set = false → s.is_in_loop_mode = true →
        s.in_buffer.length < FIFO_SIZE →
        s.is_rda_interrupt_enabled = true →
        s.interrupt_identification &&& IIR_RDA_BIT = 0 →
        (s.write 0 value false wOk fOk).err = some Error.Trigger ∧
        (s.write 0 value false wOk fOk).st.in_buffer = s.in_buffer ++ [value] ∧
        (s.write 0 value false wOk fOk).st.line_status.testBit 0 = true ∧
        (s.write 0 value false wOk fOk).st.interrupt_identification.testBit 2
          = true) ∧
    (∀ (s : Serial) (value : Nat) (tOk : Bool),
        s.is_dlab_set = false → s.is_in_loop_mode = false →
        (s.write 0 value tOk true false).err = some Error.IOError ∧
        (s.write 0 value tOk true false).sinkBytes = [value] ∧
        (s.write 0 value tOk true false).st = s) ∧
    (∀ (s : Serial) (input : List Nat), s.is_in_loop_mode = false →
        (s.enqueue_raw_bytes input false).st.in_buffer = s.in_buffer ++ input ∧
        (s.enqueue_raw_bytes input false).st.line_status.testBit 0 = true) ∧
    Error.Trigger ≠ Error.IOError := by
  refine ⟨?_, ?_, ?_, by decide⟩
  · intro s value wOk fOk hd hl hlen hen hbit
    unfold Serial.write
    rw [if_pos rfl, if_neg (by simp [hd]), if_pos hl, if_pos hlen]
    have hen2 : (Serial.set_lsr_rda_bit
        { s with in_buffer := s.in_buffer ++ [value] }).is_rda_interrupt_enabled
        = true := by
      simpa [Serial.set_lsr_rda_bit, Serial.is_rda_interrupt_enabled] using hen
    have hbit2 : (Serial.set_lsr_rda_bit
        { s with in_buffer := s.in_buffer ++ [value] }).interrupt_identification
        &&& IIR_RDA_BIT = 0 := by
      simpa [Serial.set_lsr_rda_bit] using hbit
    simp only [received_data_interrupt_fires _ false hen2 hbit2]
    refine ⟨rfl, ?_, ?_, ?_⟩
    · simp [Serial.add_interrupt, Serial.set_lsr_rda_bit]
    · simp [Serial.add_interrupt, Serial.set_lsr_rda_bit, Nat.testBit_lor]
      exact Or.inr (by decide)
    · simp [Serial.add_interrupt, Nat.testBit_lor,
        (by decide : Nat.testBit IIR_RDA_BIT 2 = true)]
  · intro s value tOk hd hl
    unfold Serial.write
    rw [if_pos rfl, if_neg (by simp [hd]), if_neg (by simp [hl]), if_pos rfl,
      if_neg (by simp)]
    exact ⟨rfl, rfl, rfl⟩
  · intro s input hl
    unfold Serial.enqueue_raw_bytes
    rw [if_pos (by simp [hl])]
    have hf := received_data_interrupt_frame
      (Serial.set_lsr_rda_bit { s with in_buffer := s.in_buffer ++ input }) false
    constructor
    · simp only [hf.2.2.2.1]
      simp [Serial.set_lsr_rda_bit]
    · simp only [hf.2.2.1]
      simp [Serial.set_lsr_rda_bit, Nat.testBit_lor]
      exact Or.inr (by decide)

/-- Witness for C6 at concrete states: a loopback write and a bulk
injection whose trigger fails, and a non-loopback write whose flush
fails. -/
theorem C6_error_no_rollback_witness :
    ((runOps Serial.new [Op.wr 4 MCR_LOOP_BIT true true true,
        Op.wr 1 IER_RDA_BIT true true true]).write 0 0x41 false true true).err
      = some Error.Trigger ∧
    ((runOps Serial.new [Op.wr 4 MCR_LOOP_BIT true true true,
        Op.wr 1 IER_RDA_BIT true true true]).write 0 0x41 false true true).st.in_buffer
      = (runOps Serial.new [Op.wr 4 MCR_LOOP_BIT true true true,
          Op.wr 1 IER_RDA_BIT true true true]).in_buffer ++ [0x41] ∧
    (Serial.new.write 0 0x41 true true false).err = some Error.IOError ∧
    (Serial.new.enqueue_raw_bytes [7] false).st.in_buffer
      = Serial.new.in_buffer ++ [7] :=
  ⟨(C6_error_no_rollback.1 _ 0x41 true true (by decide) (by decide) (by decide)
      (by decide) (by decide)).1,
   (C6_error_no_rollback.1 _ 0x41 true true (by decide) (by decide) (by decide)
      (by decide) (by decide)).2.1,
   (C6_error_no_rollback.2.1 Serial.new 0x41 true (by decide) (by decide)).1,
   (C6_error_no_rollback.2.2.1 Serial.new [7] (by decide)).1⟩

/-- C7: with loopback mode active, a Modem Status read mirrors the four
Modem Control output bits DTR, RTS, OUT1, OUT2 into the four input bits
DSR, CTS, RI, DCD one-to-one, for every engine state; with the default
stored modem status and Modem Control holding exactly LOOP+OUT2 the read
equals the DCD bit, and with LOOP+DTR+RTS it equals DSR+CTS. -/
theorem C7_loopback_msr_mirror :
    (∀ s : Serial, s.is_in_loop_mode = true →
        (s.read 6).1.testBit 4 = s.modem_control.testBit 1 ∧
        (s.read 6).1.testBit 5 = s.modem_control.testBit 0 ∧
        (s.read 6).1.testBit 6 = s.modem_control.testBit 2 ∧
        (s.read 6).1.testBit 7 = s.modem_control.testBit 3) ∧
    (∀ s : Serial, s.modem_status = DEFAULT_MODEM_STATUS →
        s.modem_control = MCR_LOOP_BIT ||| MCR_OUT2_BIT →
        (s.read 6).1 = MSR_DCD_BIT) ∧
    (∀ s : Serial, s.modem_status = DEFAULT_MODEM_STATUS →
        s.modem_control = MCR_LOOP_BIT ||| MCR_DTR_BIT ||| MCR_RTS_BIT →
        (s.read 6).1 = MSR_DSR_BIT ||| MSR_CTS_BIT) := by
  refine ⟨?_, ?_, ?_⟩
  · intro s hl
    rw [read_msr_loop s hl]
    have c0 : (s.modem_control &&& MCR_DTR_BIT ≠ 0)
        ↔ s.modem_control.testBit 0 = true := by
      simpa [MCR_DTR_BIT] using land_two_pow_ne_zero_iff s.modem_control 0
    have c1 : (s.modem_control &&& MCR_RTS_BIT ≠ 0)
        ↔ s.modem_control.testBit 1 = true := by
      simpa [MCR_RTS_BIT] using land_two_pow_ne_zero_iff s.modem_control 1
    have c2 : (s.modem_control &&& MCR_OUT1_BIT ≠ 0)
        ↔ s.modem_control.testBit 2 = true := by
      have h := land_two_pow_ne_zero_iff s.modem_control 2
      norm_num at h
      simpa [MCR_OUT1_BIT] using h
    have c3 : (s.modem_control &&& MCR_OUT2_BIT ≠ 0)
        ↔ s.modem_control.testBit 3 = true := by
      have h := land_two_pow_ne_zero_iff s.modem_control 3
      norm_num at h
      simpa [MCR_OUT2_BIT] using h
    by_cases h0 : s.modem_control.testBit 0 = true <;>
      by_cases h1 : s.modem_control.testBit 1 = true <;>
        by_cases h2 : s.modem_control.testBit 2 = true <;>
          by_cases h3 : s.modem_control.testBit 3 = true <;>
            simp [c0, c1, c2, c3, h0, h1, h2, h3, Nat.testBit_lor,
              Nat.testBit_land,
              (by decide : Nat.testBit (u8not (MSR_DSR_BIT ||| MSR_CTS_BIT |||
                MSR_RI_BIT ||| MSR_DCD_BIT)) 4 = false),
              (by decide : Nat.testBit (u8not (MSR_DSR_BIT ||| MSR_CTS_BIT |||
                MSR_RI_BIT ||| MSR_DCD_BIT)) 5 = false),
              (by decide : Nat.testBit (u8not (MSR_DSR_BIT ||| MSR_CTS_BIT |||
                MSR_RI_BIT ||| MSR_DCD_BIT)) 6 = false),
              (by decide : Nat.testBit (u8not (MSR_DSR_BIT ||| MSR_CTS_BIT |||
                MSR_RI_BIT ||| MSR_DCD_BIT)) 7 = false),
              (by decide : Nat.testBit MSR_DSR_BIT 4 = false),
              (by decide : Nat.testBit MSR_DSR_BIT 5 = true),
              (by decide : Nat.testBit MSR_DSR_BIT 6 = false),
              (by decide : Nat.testBit MSR_DSR_BIT 7 = false),
              (by decide : Nat.testBit MSR_CTS_BIT 4 = true),
              (by decide : Nat.testBit MSR_CTS_BIT 5 = false),
              (by decide : Nat.testBit MSR_CTS_BIT 6 = false),
              (by decide : Nat.testBit MSR_CTS_BIT 7 = false),
              (by decide : Nat.testBit MSR_RI_BIT 4 = false),
              (by decide : Nat.testBit MSR_RI_BIT 5 = false),
              (by decide : Nat.testBit MSR_RI_BIT 6 = true),
              (by decide : Nat.testBit MSR_RI_BIT 7 = false),
              (by decide : Nat.testBit MSR_DCD_BIT 4 = false),
              (by decide : Nat.testBit MSR_DCD_BIT 5 = false),
              (by decide : Nat.testBit MSR_DCD_BIT 6 = false),
              (by decide : Nat.testBit MSR_DCD_BIT 7 = true)]
  · intro s hms hmc
    have hl : s.is_in_loop_mode = true := by
      unfold Serial.is_in_loop_mode
      rw [hmc]
      decide
    rw [read_msr_loop s hl, hms, hmc]
    decide
  · intro s hms hmc
    have hl : s.is_in_loop_mode = true := by
      unfold Serial.is_in_loop_mode
      rw [hmc]
      decide
    rw [read_msr_loop s hl, hms, hmc]
    decide

/-- Witness for C7 at concrete loopback states. -/
theorem C7_loopback_msr_mirror_witness :
    (((runOps Serial.new [Op.wr 4 0x1F true true true]).read 6).1.testBit 4
      = (runOps Serial.new [Op.wr 4 0x1F true true true]).modem_control.testBit 1) ∧
    (((runOps Serial.new
        [Op.wr 4 (MCR_LOOP_BIT ||| MCR_OUT2_BIT) true true true]).read 6).1
      = MSR_DCD_BIT) ∧
    (((runOps Serial.new
        [Op.wr 4 (MCR_LOOP_BIT ||| MCR_DTR_BIT ||| MCR_RTS_BIT) true true true]).read
          6).1 = MSR_DSR_BIT ||| MSR_CTS_BIT) :=
  ⟨(C7_loopback_msr_mirror.1 _ (by decide)).1,
   C7_loopback_msr_mirror.2.1 _ (by decide) (by decide),
   C7_loopback_msr_mirror.2.2 _ (by decide) (by decide)⟩

/-- C9: with loopback mode active, `enqueue_raw_bytes` returns success,
leaves the whole engine state unchanged, delivers nothing to the sink and
never invokes the interrupt signal, for every input byte sequence. -/
theorem C9_enqueue_noop_in_loop_mode (s : Serial) (input : List Nat) (tOk : Bool)
    (h : s.is_in_loop_mode = true) :
    s.enqueue_raw_bytes input tOk = ⟨s, [], 0, none⟩ := by
  simp [Serial.enqueue_raw_bytes, h]

/-- Witness for C9 at a concrete loopback-mode state and input. -/
theorem C9_enqueue_noop_in_loop_mode_witness :
    ((Serial.new.write 4 MCR_LOOP_BIT true true true).st.is_in_loop_mode = true) ∧
    ((Serial.new.write 4 MCR_LOOP_BIT true true true).st.enqueue_raw_bytes
      [1, 2, 3] true
      = ⟨(Serial.new.write 4 MCR_LOOP_BIT true true true).st, [], 0, none⟩) :=
  ⟨by decide,
   C9_enqueue_noop_in_loop_mode (Serial.new.write 4 MCR_LOOP_BIT true true true).st
     [1, 2, 3] true (by decide)⟩

end ClaimTheorems

end VmSuperio
